/-
Verification of the transfer engine of the vaneck downloader repository.

The definitions below are a shallow embedding of
`src/vaneck/src/vaneck_downloader/downloader.py` (classes `DownloadStats`
and `ETFDownloader`), of the ledger operations of
`src/vaneck/src/vaneck_downloader/storage.py` (class `StorageManager`),
and of `RateLimiter` from `src/vaneck/src/downloader/core.py`.

Modelling conventions:
- File contents are abstracted to their byte counts; a local file is either
  absent or present with a size.  Streamed HTTP bodies are lists of chunk
  sizes (`chunk_size` slicing does not change any size claim; the sync
  worker's `if chunk:` guard only skips empty chunks, which contribute 0
  bytes either way).
- Exceptions are modelled by explicit branches: the network layer reports a
  connection error, an HTTP status, or a mid-stream failure, and the
  translated control flow mirrors the `try`/`except` blocks of the source.
- Python floats in `DownloadStats.get_summary` are modelled as exact
  rationals; no claim depends on the rounded numeric fields.
- `StorageManager.is_file_downloaded`, `StorageManager.save_download_record`
  and the class `DownloadRecord` are referenced by `downloader.py` but
  defined nowhere under `src`; where a claim depends on their behaviour they
  are modelled from the spec (see the doc comments marked
  "Modelled from the spec").  `download_file_sync_literal` models the literal
  code, where the missing attribute raises and the blanket handler records a
  failure.
-/
import Mathlib

set_option autoImplicit false

namespace VanEck

/-- State of the single local file targeted by one transfer: absent, or
present with a byte size (the result of `local_path.stat().st_size`). -/
inductive FileState where
  | absent
  | present (size : Nat)
deriving DecidableEq

def file_exists : FileState → Bool
  | .absent => false
  | .present _ => true

def file_size : FileState → Nat
  | .absent => 0
  | .present n => n

/-- The `(url, fund_symbol, document_type)` triple identifying one transfer,
as passed to `download_file_sync` / `download_file_async`. -/
structure TransferKey where
  url : String
  fund_symbol : String
  document_type : Option String
deriving DecidableEq

/-- The record constructed at downloader.py:217 and downloader.py:295.  The
class itself is imported from `.storage` but defined nowhere under `src`;
its fields are taken from the keyword arguments of the constructor call. -/
structure DownloadRecord where
  url : String
  local_path : String
  file_size : Nat
  download_date : String
  checksum : String
  fund_symbol : String
  document_type : Option String
deriving DecidableEq

def record_matches (q : DownloadRecord) (k : TransferKey) : Bool :=
  q.url == k.url && q.fund_symbol == k.fund_symbol && q.document_type == k.document_type

def find_record (ledger : List DownloadRecord) (k : TransferKey) : Option DownloadRecord :=
  ledger.find? (fun q => record_matches q k)

/-- Modelled from the spec: `StorageManager.is_file_downloaded` is called at
downloader.py:155 and downloader.py:260 but no definition exists under `src`
(`storage.py` defines no such method).  Spec section 4.6: the check "returns
true only if a record exists AND the referenced local file still exists with
the recorded size (detects externally deleted/truncated files and forces
re-download)". -/
def is_file_downloaded (ledger : List DownloadRecord) (k : TransferKey)
    (fs : FileState) : Bool :=
  match find_record ledger k with
  | some q =>
      match fs with
      | .present s => s == q.file_size
      | .absent => false
  | none => false

/-- Modelled from the spec: `StorageManager.save_download_record` is called at
downloader.py:227 and downloader.py:305 but no definition exists under `src`.
Spec section 3 (TransferRecord): "at most one live record per
(resource_id, document_type) pair; a new successful transfer overwrites the
prior record". -/
def save_download_record (ledger : List DownloadRecord) (q : DownloadRecord) :
    List DownloadRecord :=
  q :: ledger.filter (fun p => !(p.url == q.url && p.fund_symbol == q.fund_symbol &&
      p.document_type == q.document_type))

/-- The fields of `Config` used by the download path (config.py:27-49). -/
structure Config where
  enable_resume : Bool
  request_timeout : Nat
  chunk_size : Nat
deriving DecidableEq

/-- Observable behaviour of the HEAD probe issued by `_get_file_info`
(downloader.py:96-128).  `ok = false` models a raised connection error or
timeout; otherwise the final (redirect-resolved, 405-fallback-resolved)
response carries a status, an optional `Content-Length`, and whether
`Accept-Ranges` equals `bytes`. -/
structure ProbeResp where
  ok : Bool
  status : Nat
  content_length : Option Nat
  accept_ranges_bytes : Bool
deriving DecidableEq

/-- The fallible part of `_get_file_info`: the request itself may raise, and
`raise_for_status` raises for any status of at least 400. -/
def probe_attempt (p : ProbeResp) : Except String (Option Nat × Bool) :=
  if p.ok = false then .error "connection error"
  else if 400 ≤ p.status then .error "HTTPError"
  else .ok (p.content_length, p.accept_ranges_bytes)

/-- `_get_file_info` (downloader.py:96-128): the whole body sits in a
`try`/`except Exception` that converts every failure into `(None, False)`. -/
def get_file_info (p : ProbeResp) : Option Nat × Bool :=
  match probe_attempt p with
  | .ok r => r
  | .error _ => (none, false)

/-- Raise-behaviour view of `_get_file_info`: because of its internal
catch-all handler the function returns normally on every input, so the value
is always `Except.ok`. -/
def probe_body (p : ProbeResp) : Except String (Option Nat × Bool) :=
  .ok (get_file_info p)

/-- `stop_after_attempt(3)` from the decorator at downloader.py:92-95. -/
def probe_retry_stop_after_attempt : Nat := 3

/-- `wait_exponential(multiplier=1, min=4, max=10)` from downloader.py:94:
the minimum backoff delay, in seconds. -/
def probe_retry_wait_min : Nat := 4

/-- `wait_exponential(multiplier=1, min=4, max=10)` from downloader.py:94:
the maximum backoff delay, in seconds. -/
def probe_retry_wait_max : Nat := 10

/-- Number of calls the tenacity `retry` wrapper makes to a deterministic
wrapped callable: one when the call returns normally, `max_attempts` when
every call raises (retry fires only on exceptions). -/
def tenacity_attempt_count (r : Except String (Option Nat × Bool))
    (max_attempts : Nat) : Nat :=
  match r with
  | .ok _ => 1
  | .error _ => max_attempts

/-- Observable behaviour of the download GET (downloader.py:184-190 and the
async `session.get` at downloader.py:276): either the request raises
(connection error / timeout), or a response arrives with a status and a
stream of chunk sizes; `stream_error = true` means an exception is raised
after the listed chunks were delivered and written. -/
inductive GetOutcome where
  | netError
  | resp (status : Nat) (chunks : List Nat) (stream_error : Bool)
deriving DecidableEq

/-- The remote server's behaviour for one attempt. -/
structure RemoteEnv where
  probe : ProbeResp
  get : GetOutcome
deriving DecidableEq

/-- Input of one `download_file_sync` / `download_file_async` call: the
configuration, the ledger, the request key and path, the state of the local
file, the remote behaviour, and the ambient values entering the saved record
(`datetime.now().isoformat()` and the checksum of the final file). -/
structure SyncEnv where
  cfg : Config
  ledger : List DownloadRecord
  key : TransferKey
  local_path : String
  fs : FileState
  remote : RemoteEnv
  download_date : String
  checksum_val : String
deriving DecidableEq

inductive SyncOutcome where
  | skip_ledger
  | skip_complete
  | success
  | failure
deriving DecidableEq

/-- Everything observable about one call: the returned boolean, which branch
concluded it, the final file state and ledger, how many probe (HEAD) and GET
requests went on the wire, the `Range` header attached to the GET (the `N`
of `bytes=N-`), the offset at which the local file was opened for writing
(`some 0` is mode `wb`, `some n` with `0 < n` is mode `ab` at size `n`,
`none` means the file was never opened), the byte count passed to
`add_success`, the record passed to `save_download_record`, and whether
`add_failure` recorded an error string. -/
structure SyncResult where
  retval : Bool
  outcome : SyncOutcome
  fs : FileState
  ledger : List DownloadRecord
  probe_calls : Nat
  get_calls : Nat
  sent_range : Option Nat
  write_base : Option Nat
  counted_bytes : Nat
  saved_record : Option DownloadRecord
  error_recorded : Bool
deriving DecidableEq

/-- The skip branches (downloader.py:157-159 and downloader.py:179-181):
`add_skip` and `return True`, nothing else touched. -/
def skip_result (e : SyncEnv) (probes : Nat) (oc : SyncOutcome) : SyncResult :=
  { retval := true, outcome := oc, fs := e.fs, ledger := e.ledger,
    probe_calls := probes, get_calls := 0, sent_range := none, write_base := none,
    counted_bytes := 0, saved_record := none, error_recorded := false }

/-- The `except Exception` handler (downloader.py:233-245 and 311-323):
`add_failure`, then delete the local file only when it exists with size 0. -/
def except_cleanup : FileState → FileState
  | .present 0 => .absent
  | fs => fs

def mk_record (e : SyncEnv) (size : Nat) : DownloadRecord :=
  { url := e.key.url, local_path := e.local_path, file_size := size,
    download_date := e.download_date, checksum := e.checksum_val,
    fund_symbol := e.key.fund_symbol, document_type := e.key.document_type }

/-- The GET-and-stream stage shared by `download_file_sync`
(downloader.py:183-245) and `download_file_async` (downloader.py:275-323),
entered with `existing_size` and the `Range` header chosen by the caller.
`mode = 'ab' if existing_size > 0 else 'wb'`: the append write starts at the
file's current size, which equals `existing_size` (it was read from `stat`
in the same call), and the `wb` open truncates to 0 = `existing_size`; hence
the write base is `existing_size` in both modes.  The response status is
only fed to `raise_for_status` (raises for any status of at least 400);
a `200` after a ranged request is not distinguished from a `206`.  After a
complete stream the size-mismatch check only logs a warning, the checksum
helper cannot raise (its own catch-all returns an empty string), the record
is saved and `add_success(downloaded_bytes - existing_size)` is called. -/
def perform_get (e : SyncEnv) (probes existing : Nat) (range_hdr : Option Nat) :
    SyncResult :=
  match e.remote.get with
  | .netError =>
      { retval := false, outcome := .failure, fs := except_cleanup e.fs,
        ledger := e.ledger, probe_calls := probes, get_calls := 1,
        sent_range := range_hdr, write_base := none, counted_bytes := 0,
        saved_record := none, error_recorded := true }
  | .resp status chunks stream_error =>
      if 400 ≤ status then
        { retval := false, outcome := .failure, fs := except_cleanup e.fs,
          ledger := e.ledger, probe_calls := probes, get_calls := 1,
          sent_range := range_hdr, write_base := none, counted_bytes := 0,
          saved_record := none, error_recorded := true }
      else if stream_error then
        { retval := false, outcome := .failure,
          fs := except_cleanup (.present (existing + chunks.sum)),
          ledger := e.ledger, probe_calls := probes, get_calls := 1,
          sent_range := range_hdr, write_base := some existing, counted_bytes := 0,
          saved_record := none, error_recorded := true }
      else
        let drec := mk_record e (existing + chunks.sum)
        { retval := true, outcome := .success, fs := .present (existing + chunks.sum),
          ledger := save_download_record e.ledger drec, probe_calls := probes,
          get_calls := 1, sent_range := range_hdr, write_base := some existing,
          counted_bytes := (existing + chunks.sum) - existing,
          saved_record := some drec, error_recorded := false }

/-- `ETFDownloader.download_file_sync` (downloader.py:143-245), with the
ledger check spec-modelled (see `is_file_downloaded`).  Control flow:
ledger short-circuit; `_get_file_info`; the resume block is entered only
when `enable_resume`, the file exists, the server advertises range support
and `expected_size` is truthy (a `Content-Length` of `None` or `0` is
falsy); inside it, a smaller partial resumes with `Range: bytes=K-` and a
partial at least as large as `expected_size` is skipped as complete;
otherwise a plain GET from scratch. -/
def download_file_sync (e : SyncEnv) : SyncResult :=
  if is_file_downloaded e.ledger e.key e.fs = true ∧ file_exists e.fs = true ∧
      0 < file_size e.fs then
    skip_result e 0 .skip_ledger
  else
    let info := get_file_info e.remote.probe
    if e.cfg.enable_resume = true ∧ file_exists e.fs = true ∧ info.2 = true ∧
        info.1.getD 0 ≠ 0 then
      if file_size e.fs < info.1.getD 0 then
        perform_get e 1 (file_size e.fs) (some (file_size e.fs))
      else
        skip_result e 1 .skip_complete
    else
      perform_get e 1 0 none

/-- `ETFDownloader.download_file_async` (downloader.py:247-323): same ledger
short-circuit, but no probe at all; whenever `enable_resume` holds and the
file exists, `existing_size` is read and a `Range: bytes=existing_size-`
header is attached unconditionally (downloader.py:270-273), irrespective of
any range support of the server. -/
def download_file_async (e : SyncEnv) : SyncResult :=
  if is_file_downloaded e.ledger e.key e.fs = true ∧ file_exists e.fs = true ∧
      0 < file_size e.fs then
    skip_result e 0 .skip_ledger
  else
    if e.cfg.enable_resume = true ∧ file_exists e.fs = true then
      perform_get e 0 (file_size e.fs) (some (file_size e.fs))
    else
      perform_get e 0 0 none

/-- Top-level names defined by `src/vaneck/src/vaneck_downloader/storage.py`
(imports and classes, in source order). -/
def storage_module_defs : List String :=
  ["json", "logging", "Path", "Dict", "Any", "Optional", "List", "urlparse",
   "hashlib", "datetime", "timezone", "Config", "ETFData", "logger",
   "StorageManager"]

/-- The methods defined by `class StorageManager` in storage.py:17-238, in
source order. -/
def storage_manager_methods : List String :=
  ["__init__", "_ensure_base_directory", "get_etf_directory", "get_file_path",
   "_guess_extension_from_url", "_sanitise_filename", "save_etf_metadata",
   "load_etf_metadata", "get_downloaded_files", "get_storage_stats",
   "cleanup_empty_directories", "create_download_summary",
   "verify_file_integrity"]

/-- `download_file_sync` as the literal code executes: the first statement of
the `try` block resolves the attribute `is_file_downloaded` on the
`StorageManager` instance; as the class defines no such method, the lookup
raises `AttributeError`, which the blanket `except Exception` handler at
downloader.py:233 converts into `add_failure` plus the zero-size cleanup and
`return False`, before any network request. -/
def download_file_sync_literal (e : SyncEnv) : SyncResult :=
  if storage_manager_methods.contains "is_file_downloaded" = true then
    download_file_sync e
  else
    { retval := false, outcome := .failure, fs := except_cleanup e.fs,
      ledger := e.ledger, probe_calls := 0, get_calls := 0, sent_range := none,
      write_base := none, counted_bytes := 0, saved_record := none,
      error_recorded := true }

/-- `DownloadStats` (downloader.py:23-47): the mutable counters and the
error list. -/
structure StatsState where
  total_files : Nat
  downloaded_files : Nat
  skipped_files : Nat
  failed_files : Nat
  total_bytes : Nat
  errors : List String
deriving DecidableEq

/-- `DownloadStats.__init__` (downloader.py:26-33). -/
def stats_init : StatsState :=
  { total_files := 0, downloaded_files := 0, skipped_files := 0,
    failed_files := 0, total_bytes := 0, errors := [] }

/-- `DownloadStats.add_success` (downloader.py:35-38). -/
def add_success (s : StatsState) (size : Nat) : StatsState :=
  { s with downloaded_files := s.downloaded_files + 1,
           total_bytes := s.total_bytes + size }

/-- `DownloadStats.add_skip` (downloader.py:40-42). -/
def add_skip (s : StatsState) : StatsState :=
  { s with skipped_files := s.skipped_files + 1 }

/-- `DownloadStats.add_failure` (downloader.py:44-47). -/
def add_failure (s : StatsState) (err : String) : StatsState :=
  { s with failed_files := s.failed_files + 1, errors := s.errors ++ [err] }

/-- Python list subscription `l[i]` including negative indices: `none` models
a raised `IndexError`. -/
def py_list_get (l : List String) (i : Int) : Option String :=
  if 0 ≤ i then l.get? i.toNat
  else if 0 ≤ i + l.length then l.get? (i + l.length).toNat
  else none

/-- `round(x, 2)`; Python float rounding modelled over exact rationals
(half-up; no claim depends on these rounded fields). -/
def round2 (x : ℚ) : ℚ := ((⌊x * 100 + 1 / 2⌋ : ℤ) : ℚ) / 100

/-- A Python value as stored under the "errors" key of the summary dict:
the code stores a single string (when `[-10]` is in range), the spec expects
a list of strings. -/
inductive PyVal where
  | pystr (s : String)
  | pylist (l : List String)
deriving DecidableEq

structure SummaryDict where
  total_files : Nat
  downloaded : Nat
  skipped : Nat
  failed : Nat
  total_bytes : Nat
  total_mb : ℚ
  elapsed_seconds : ℚ
  download_rate_mbps : ℚ
  success_rate : ℚ
  errors_field : PyVal
deriving DecidableEq

/-- `DownloadStats.get_summary` (downloader.py:49-68).  The dict literal
evaluates `self.errors[-10]` (note: an index, not the slice `[-10:]` its
comment announces); an `IndexError` there propagates out of `get_summary`,
modelled as `Except.error`.  The numeric fields cannot raise
(`max(..., 1)` guards both divisions). -/
def get_summary (s : StatsState) (elapsed_time : ℚ) : Except String SummaryDict :=
  match py_list_get s.errors (-10) with
  | none => .error "IndexError: list index out of range"
  | some v =>
      .ok { total_files := s.total_files, downloaded := s.downloaded_files,
            skipped := s.skipped_files, failed := s.failed_files,
            total_bytes := s.total_bytes,
            total_mb := round2 ((s.total_bytes : ℚ) / (1024 * 1024)),
            elapsed_seconds := round2 elapsed_time,
            download_rate_mbps :=
              round2 (((s.total_bytes : ℚ) / (1024 * 1024)) / max elapsed_time 1),
            success_rate :=
              round2 ((s.downloaded_files : ℚ) / max (s.total_files : ℚ) 1 * 100),
            errors_field := PyVal.pystr v }

/-- `RateLimiter` state (core.py:160-170): the call count of the current
window and the window start, in seconds. -/
structure RLState where
  calls_made : Nat
  window_start : Nat
deriving DecidableEq

/-- `RateLimiter.acquire` (core.py:172-206) for `calls_per_minute = cpm`,
entered when the internal lock is obtained at time `now`: reset the counter
when a full minute has passed; when the budget is exhausted, sleep until
`window_start + 60`, reset, and stamp the new window at the wake-up time
(the sleep is modelled as waking exactly at the target); then increment.
Returns the admission time and the new state. -/
def rl_acquire (cpm : Nat) (s : RLState) (now : Nat) : Nat × RLState :=
  let s1 := if 60 ≤ now - s.window_start then RLState.mk 0 now else s
  if cpm ≤ s1.calls_made then
    if now < s1.window_start + 60 then
      (s1.window_start + 60, RLState.mk 1 (s1.window_start + 60))
    else
      (now, RLState.mk (s1.calls_made + 1) s1.window_start)
  else
    (now, RLState.mk (s1.calls_made + 1) s1.window_start)

/-- A sequential run of `acquire` calls: the k-th caller reaches the lock
`gap_k` seconds after the previous admission (callers are serialised by the
internal lock, so arrival times never precede the previous admission).
Returns, per call, the admission time and the window start it was counted
against. -/
def rl_run (cpm : Nat) (s : RLState) (last : Nat) : List Nat → List (Nat × Nat)
  | [] => []
  | gap :: gaps =>
      let step := rl_acquire cpm s (last + gap)
      (step.1, step.2.window_start) :: rl_run cpm step.2 step.1 gaps

/-- Admission times of a run started from a freshly constructed limiter
(`calls_made = 0`, `window_start = t0`). -/
def rl_admits (cpm t0 : Nat) (gaps : List Nat) : List Nat :=
  (rl_run cpm (RLState.mk 0 t0) t0 gaps).map Prod.fst

/-- The rolling-window property claimed for the limiter: any two admissions
`cpm` positions apart lie at least 60 seconds apart. -/
def rolling_bound (cpm : Nat) (l : List Nat) : Prop :=
  ∀ i j : Fin l.length, (i : Nat) + cpm = (j : Nat) → l.get i + 60 ≤ l.get j

/-- Number of admissions of a run counted against window start `w`. -/
def window_count (w : Nat) (l : List (Nat × Nat)) : Nat :=
  (l.filter (fun p => p.2 == w)).length

instance (cpm : Nat) (l : List Nat) : Decidable (rolling_bound cpm l) := by
  unfold rolling_bound; infer_instance

/-! Concrete inputs used by counterexamples and witnesses. -/

def cfg0 : Config := { enable_resume := true, request_timeout := 30, chunk_size := 8192 }

def key0 : TransferKey := { url := "u", fund_symbol := "GDX", document_type := some "fact_sheet" }

/-- A partial file of 5 bytes; the probe reports 10 bytes with range support;
the GET answers `200` with the full 10-byte content (a server that ignores
`Range`). -/
def c1_env : SyncEnv :=
  { cfg := cfg0, ledger := [], key := key0, local_path := "p", fs := .present 5,
    remote := { probe := ⟨true, 200, some 10, true⟩, get := .resp 200 [10] false },
    download_date := "d", checksum_val := "c" }

/-- A partial file of 3 bytes on a server that does not support ranges (the
probe would report `supports_range = false`); the GET answers `200` with a
7-byte body. -/
def c2_env : SyncEnv :=
  { cfg := cfg0, ledger := [], key := key0, local_path := "p", fs := .present 3,
    remote := { probe := ⟨true, 200, some 10, false⟩, get := .resp 200 [7] false },
    download_date := "d", checksum_val := "c" }

/-- Stats of a batch of 10 requests of which 5 failed. -/
def c3_stats_five : StatsState :=
  ["e1", "e2", "e3", "e4", "e5"].foldl add_failure { stats_init with total_files := 10 }

/-- Stats with 12 recorded errors. -/
def c3_stats_twelve : StatsState :=
  ["e1", "e2", "e3", "e4", "e5", "e6", "e7", "e8", "e9", "e10", "e11",
   "e12"].foldl add_failure stats_init

/-- Fresh request whose GET completes with a 0-byte body. -/
def c4_env : SyncEnv :=
  { cfg := cfg0, ledger := [], key := key0, local_path := "p", fs := .absent,
    remote := { probe := ⟨true, 200, none, false⟩, get := .resp 200 [] false },
    download_date := "d", checksum_val := "c" }

/-- Fresh request that downloads 10 bytes successfully. -/
def c4_wit_env : SyncEnv :=
  { cfg := cfg0, ledger := [], key := key0, local_path := "p", fs := .absent,
    remote := { probe := ⟨true, 200, some 10, true⟩, get := .resp 200 [10] false },
    download_date := "d", checksum_val := "c" }

/-- A completed 100-byte record for `key0`. -/
def c5_rec : DownloadRecord :=
  { url := "u", local_path := "p", file_size := 100, download_date := "d",
    checksum := "c", fund_symbol := "GDX", document_type := some "fact_sheet" }

/-- The file behind `c5_rec` externally truncated to 50 bytes; the remote is
unchanged (the probe still reports 100 bytes). -/
def c5_env : SyncEnv :=
  { cfg := cfg0, ledger := [c5_rec], key := key0, local_path := "p", fs := .present 50,
    remote := { probe := ⟨true, 200, some 100, true⟩, get := .resp 206 [50] false },
    download_date := "d", checksum_val := "c" }

/-- Request answered by a persistent HTTP 500. -/
def c7_env : SyncEnv :=
  { cfg := cfg0, ledger := [], key := key0, local_path := "p", fs := .absent,
    remote := { probe := ⟨true, 200, some 10, false⟩, get := .resp 500 [] false },
    download_date := "d", checksum_val := "c" }

/-- Fresh request whose response stream completes after 0 content bytes while
the probe advertised 10 bytes of content. -/
def c8_env : SyncEnv :=
  { cfg := cfg0, ledger := [], key := key0, local_path := "p", fs := .absent,
    remote := { probe := ⟨true, 200, some 10, true⟩, get := .resp 200 [] false },
    download_date := "d", checksum_val := "c" }

/-- Resumed transfer (5 existing bytes) whose stream delivers 3 bytes and
then raises. -/
def c9_env : SyncEnv :=
  { cfg := cfg0, ledger := [], key := key0, local_path := "p", fs := .present 5,
    remote := { probe := ⟨true, 200, some 10, true⟩, get := .resp 206 [3] true },
    download_date := "d", checksum_val := "c" }

/-- The ledger and file state produced by the first run of `download_file_sync`
on `e`, combined with a fresh remote behaviour for the second run (the second
run's ambient date and checksum may also differ). -/
def second_run_env (e : SyncEnv) (remote2 : RemoteEnv) (dd ck : String) : SyncEnv :=
  { cfg := e.cfg, ledger := (download_file_sync e).ledger, key := e.key,
    local_path := e.local_path, fs := (download_file_sync e).fs, remote := remote2,
    download_date := dd, checksum_val := ck }

/-! Helper lemmas about the shared GET stage. -/

theorem perform_get_get_calls (e : SyncEnv) (probes existing : Nat)
    (rh : Option Nat) : (perform_get e probes existing rh).get_calls = 1 := by
  unfold perform_get
  rcases e.remote.get with _ | ⟨status, chunks, se⟩
  case netError => rfl
  case resp => dsimp only; split_ifs <;> rfl

theorem perform_get_sent_range (e : SyncEnv) (probes existing : Nat)
    (rh : Option Nat) : (perform_get e probes existing rh).sent_range = rh := by
  unfold perform_get
  rcases e.remote.get with _ | ⟨status, chunks, se⟩
  case netError => rfl
  case resp => dsimp only; split_ifs <;> rfl

theorem perform_get_write_base (e : SyncEnv) (probes existing : Nat)
    (rh : Option Nat) : (perform_get e probes existing rh).write_base = none ∨
      (perform_get e probes existing rh).write_base = some existing := by
  unfold perform_get
  rcases e.remote.get with _ | ⟨status, chunks, se⟩
  case netError => left; rfl
  case resp =>
    dsimp only
    split_ifs
    · left; rfl
    · right; rfl
    · right; rfl

theorem perform_get_not_skip (e : SyncEnv) (probes existing : Nat)
    (rh : Option Nat) : (perform_get e probes existing rh).outcome ≠ .skip_ledger ∧
      (perform_get e probes existing rh).outcome ≠ .skip_complete := by
  unfold perform_get
  rcases e.remote.get with _ | ⟨status, chunks, se⟩
  case netError => exact ⟨by simp, by simp⟩
  case resp =>
    dsimp only
    split_ifs <;> exact ⟨by simp, by simp⟩

theorem perform_get_failure_spec (e : SyncEnv) (probes existing : Nat)
    (rh : Option Nat) (h : (perform_get e probes existing rh).outcome = .failure) :
    (perform_get e probes existing rh).error_recorded = true ∧
      (perform_get e probes existing rh).retval = false := by
  unfold perform_get at h ⊢
  rcases hg : e.remote.get with _ | ⟨status, chunks, se⟩ <;> rw [hg] at h
  case netError => exact ⟨rfl, rfl⟩
  case resp =>
    dsimp only at h ⊢
    split_ifs at h ⊢ <;> exact ⟨rfl, rfl⟩

theorem perform_get_success_spec (e : SyncEnv) (probes existing : Nat)
    (rh : Option Nat) (h : (perform_get e probes existing rh).outcome = .success) :
    ∃ n, (perform_get e probes existing rh).fs = .present n ∧
      (perform_get e probes existing rh).ledger =
        save_download_record e.ledger (mk_record e n) := by
  unfold perform_get at h ⊢
  rcases hg : e.remote.get with _ | ⟨status, chunks, se⟩ <;> rw [hg] at h
  case netError => simp at h
  case resp =>
    dsimp only at h ⊢
    split_ifs at h ⊢
    exact ⟨existing + chunks.sum, rfl, rfl⟩

/-- Every run of `download_file_sync` ends in one of the two skip branches or
in the shared GET stage. -/
theorem download_file_sync_cases (e : SyncEnv) :
    download_file_sync e = skip_result e 0 .skip_ledger ∨
    download_file_sync e = skip_result e 1 .skip_complete ∨
    (∃ existing rh, download_file_sync e = perform_get e 1 existing rh) := by
  unfold download_file_sync
  by_cases h1 : is_file_downloaded e.ledger e.key e.fs = true ∧
      file_exists e.fs = true ∧ 0 < file_size e.fs
  · left; rw [if_pos h1]
  · rw [if_neg h1]
    by_cases h2 : e.cfg.enable_resume = true ∧ file_exists e.fs = true ∧
        (get_file_info e.remote.probe).2 = true ∧
        (get_file_info e.remote.probe).1.getD 0 ≠ 0
    · rw [if_pos h2]
      by_cases h3 : file_size e.fs < (get_file_info e.remote.probe).1.getD 0
      · right; right; exact ⟨file_size e.fs, some (file_size e.fs), if_pos h3⟩
      · right; left; rw [if_neg h3]
    · right; right; exact ⟨0, none, if_neg h2⟩

theorem except_cleanup_pos (n : Nat) (h : 0 < n) :
    except_cleanup (.present n) = .present n := by
  cases n with
  | zero => omega
  | succ k => rfl

/-- The ledger short-circuit branch concludes a sync call precisely when the
(spec-modelled) ledger check, the existence check and the non-zero-size check
of downloader.py:155-156 all pass. -/
theorem download_file_sync_skip_ledger_iff (e : SyncEnv) :
    (download_file_sync e).outcome = .skip_ledger ↔
      (is_file_downloaded e.ledger e.key e.fs = true ∧ file_exists e.fs = true ∧
       0 < file_size e.fs) := by
  unfold download_file_sync
  by_cases h1 : is_file_downloaded e.ledger e.key e.fs = true ∧
      file_exists e.fs = true ∧ 0 < file_size e.fs
  · rw [if_pos h1]
    simp [skip_result, h1]
  · rw [if_neg h1]
    constructor
    · intro h
      exfalso
      by_cases h2 : e.cfg.enable_resume = true ∧ file_exists e.fs = true ∧
          (get_file_info e.remote.probe).2 = true ∧
          (get_file_info e.remote.probe).1.getD 0 ≠ 0
      · rw [if_pos h2] at h
        by_cases h3 : file_size e.fs < (get_file_info e.remote.probe).1.getD 0
        · rw [if_pos h3] at h
          exact (perform_get_not_skip e 1 _ _).1 h
        · rw [if_neg h3] at h
          simp [skip_result] at h
      · rw [if_neg h2] at h
        exact (perform_get_not_skip e 1 0 none).1 h
    · intro h
      exact absurd h h1

/-! Claim theorems. -/

/-- Claim C3 (code bug): `DownloadStats.get_summary` does not return a
complete summary with the last ten error strings; its "errors" entry is
`self.errors[-10]`, a single negative index.  With the five errors of a
10-request batch in which 5 requests failed, the index is out of range and
`get_summary` raises `IndexError` instead of returning; with twelve recorded
errors it returns the single tenth-from-last string "e3" rather than the
list of the last ten. -/
theorem C3_get_summary_errors_index :
    get_summary c3_stats_five 1 = .error "IndexError: list index out of range" ∧
    (get_summary c3_stats_five 1).toOption = none ∧
    (get_summary c3_stats_twelve 1).toOption.map SummaryDict.errors_field =
      some (PyVal.pystr "e3") := by
  refine ⟨rfl, rfl, ?_⟩
  rfl

/-- Claim C10 (confirmed): `downloader.py` imports `DownloadRecord` from
`.storage` and calls `StorageManager.is_file_downloaded`,
`StorageManager.save_download_record` and `StorageManager.get_local_path`,
yet `storage.py` defines none of those names, so the module import itself
fails and, taking the module as loaded, every `download_file_sync` call
raises `AttributeError` at its first ledger check, which the blanket handler
converts into a recorded failure returning `False` — before any probe or GET
request, and without ever saving a record. -/
theorem C10_every_sync_download_fails (e : SyncEnv) :
    storage_module_defs.contains "DownloadRecord" = false ∧
    storage_manager_methods.contains "is_file_downloaded" = false ∧
    storage_manager_methods.contains "save_download_record" = false ∧
    storage_manager_methods.contains "get_local_path" = false ∧
    (download_file_sync_literal e).retval = false ∧
    (download_file_sync_literal e).outcome = .failure ∧
    (download_file_sync_literal e).error_recorded = true ∧
    (download_file_sync_literal e).saved_record = none ∧
    (download_file_sync_literal e).probe_calls = 0 ∧
    (download_file_sync_literal e).get_calls = 0 := by
  have hmem : ¬ ("is_file_downloaded" ∈ storage_manager_methods) := by decide
  refine ⟨by decide, by decide, by decide, by decide, ?_, ?_, ?_, ?_, ?_, ?_⟩ <;>
    simp [download_file_sync_literal, hmem]

/-- Claim C8, counterexample: a fresh transfer whose response stream
completes after delivering 0 content bytes (while the probe advertised 10
bytes) is NOT treated as a failure: `download_file_sync` returns `True`,
counts the request as downloaded (`add_success(0)`), and saves a completed
record with `file_size = 0`. -/
theorem C8_counterexample :
    (download_file_sync c8_env).outcome = .success ∧
    (download_file_sync c8_env).retval = true ∧
    (download_file_sync c8_env).saved_record.map DownloadRecord.file_size = some 0 ∧
    (download_file_sync c8_env).counted_bytes = 0 ∧
    (download_file_sync c8_env).fs = .present 0 := by
  refine ⟨?_, ?_, ?_, ?_, ?_⟩ <;> rfl

/-- Claim C8, amended: a fresh (non-resumed) transfer whose response stream
completes after delivering 0 content bytes is recorded as a success, not a
failure: the call returns `True`, `add_success(0)` counts it as downloaded,
a completed record with `file_size = 0` is saved, and the empty file remains
on disk (the zero-size cleanup runs only in the exception handler). -/
theorem C8_zero_byte_stream_recorded_success (e : SyncEnv) (status : Nat)
    (chunks : List Nat)
    (hfs : e.fs = .absent)
    (hget : e.remote.get = .resp status chunks false)
    (hst : status < 400)
    (hsum : chunks.sum = 0) :
    (download_file_sync e).outcome = .success ∧
    (download_file_sync e).retval = true ∧
    (download_file_sync e).saved_record.map DownloadRecord.file_size = some 0 ∧
    (download_file_sync e).counted_bytes = 0 ∧
    (download_file_sync e).fs = .present 0 := by
  have hne : ¬ (400 ≤ status) := by omega
  simp [download_file_sync, perform_get, hfs, hget, hsum, hne, file_exists,
    file_size, mk_record]

theorem C8_witness :
    (download_file_sync c8_env).outcome = .success ∧
    (download_file_sync c8_env).retval = true ∧
    (download_file_sync c8_env).saved_record.map DownloadRecord.file_size = some 0 ∧
    (download_file_sync c8_env).counted_bytes = 0 ∧
    (download_file_sync c8_env).fs = .present 0 :=
  C8_zero_byte_stream_recorded_success c8_env 200 [] rfl rfl (by omega) rfl

/-- Claim C5 (confirmed; the ledger check is spec-modelled because
`StorageManager.is_file_downloaded` has no definition under `src`): the
ledger short-circuit reports a transfer as already satisfied only if a
completed record for the request exists and the local file still exists
with exactly the recorded (non-zero) size; consequently, for a file
externally truncated to a smaller non-zero size `s` while the remote is
unchanged (the probe still reports the recorded size), the call does not
skip and issues a download GET. -/
theorem C5_skip_requires_matching_record :
    (∀ e : SyncEnv, (download_file_sync e).outcome = .skip_ledger →
      ∃ q, find_record e.ledger e.key = some q ∧
        e.fs = .present q.file_size ∧ 0 < q.file_size) ∧
    (∀ (e : SyncEnv) (q : DownloadRecord) (s : Nat),
      find_record e.ledger e.key = some q →
      e.fs = .present s → 0 < s → s < q.file_size →
      e.remote.probe.ok = true → e.remote.probe.status < 400 →
      e.remote.probe.content_length = some q.file_size →
      (download_file_sync e).outcome ≠ .skip_ledger ∧
      (download_file_sync e).outcome ≠ .skip_complete ∧
      (download_file_sync e).get_calls = 1) := by
  constructor
  · intro e h
    obtain ⟨hd, hex, hpos⟩ := (download_file_sync_skip_ledger_iff e).mp h
    unfold is_file_downloaded at hd
    cases hfr : find_record e.ledger e.key with
    | none => rw [hfr] at hd; simp at hd
    | some q =>
      rw [hfr] at hd
      cases hfs : e.fs with
      | absent => rw [hfs] at hd; simp at hd
      | present s =>
        rw [hfs] at hd
        have hsq : s = q.file_size := by simpa using hd
        refine ⟨q, rfl, ?_, ?_⟩
        · rw [hsq]
        · rw [hfs] at hpos
          simp only [file_size] at hpos
          omega
  · intro e q s hfr hfs hs hlt hpok hpst hpcl
    have hinfo : get_file_info e.remote.probe =
        (some q.file_size, e.remote.probe.accept_ranges_bytes) := by
      have hne : ¬ (400 ≤ e.remote.probe.status) := by omega
      simp [get_file_info, probe_attempt, hpok, hne, hpcl]
    have hnotd : is_file_downloaded e.ledger e.key e.fs = false := by
      unfold is_file_downloaded
      rw [hfr, hfs]
      simp only [beq_eq_false_iff_ne, ne_eq]
      omega
    have hnoskip : ¬ (is_file_downloaded e.ledger e.key e.fs = true ∧
        file_exists e.fs = true ∧ 0 < file_size e.fs) := by
      intro hc
      rw [hnotd] at hc
      exact absurd hc.1 (by simp)
    refine ⟨?_, ?_, ?_⟩
    · intro hcontra
      exact hnoskip ((download_file_sync_skip_ledger_iff e).mp hcontra)
    all_goals
      unfold download_file_sync
      rw [if_neg hnoskip]
      by_cases h2 : e.cfg.enable_resume = true ∧ file_exists e.fs = true ∧
          (get_file_info e.remote.probe).2 = true ∧
          (get_file_info e.remote.probe).1.getD 0 ≠ 0
    · rw [if_pos h2]
      have h3 : file_size e.fs < (get_file_info e.remote.probe).1.getD 0 := by
        rw [hinfo, hfs]
        simpa [file_size] using hlt
      rw [if_pos h3]
      exact (perform_get_not_skip e 1 _ _).2
    · rw [if_neg h2]
      exact (perform_get_not_skip e 1 0 none).2
    · rw [if_pos h2]
      have h3 : file_size e.fs < (get_file_info e.remote.probe).1.getD 0 := by
        rw [hinfo, hfs]
        simpa [file_size] using hlt
      rw [if_pos h3]
      exact perform_get_get_calls e 1 _ _
    · rw [if_neg h2]
      exact perform_get_get_calls e 1 0 none

theorem C5_witness :
    (download_file_sync c5_env).outcome ≠ .skip_ledger ∧
    (download_file_sync c5_env).outcome ≠ .skip_complete ∧
    (download_file_sync c5_env).get_calls = 1 :=
  C5_skip_requires_matching_record.2 c5_env c5_rec 50 rfl rfl (by decide)
    (by decide) rfl (by decide) rfl

/-- Claim C4, counterexample: a first run whose stream legitimately delivers
0 bytes is recorded as a fully successful batch-run outcome (`True`,
counted as downloaded, record saved), the local file and remote content stay
unchanged, and yet the second identical run does not resolve via the ledger
short-circuit: the guard `local_path.stat().st_size > 0` fails, so the run
probes and downloads again (one new GET) and counts another download
instead of a skip. -/
theorem C4_counterexample :
    (download_file_sync c4_env).outcome = .success ∧
    (download_file_sync c4_env).retval = true ∧
    (download_file_sync (second_run_env c4_env c4_env.remote "d" "c")).outcome =
      .success ∧
    (download_file_sync (second_run_env c4_env c4_env.remote "d" "c")).get_calls =
      1 ∧
    (download_file_sync (second_run_env c4_env c4_env.remote "d" "c")).probe_calls =
      1 := by
  exact ⟨rfl, rfl, rfl, rfl, rfl⟩

/-- Claim C4, amended: if a run completes successfully for a request with a
non-empty resulting file and neither the ledger, the local file nor the
request change, the second run resolves via the ledger short-circuit: it is
counted as skipped, returns `True`, and performs zero probe and zero GET
requests, whatever the remote would have answered.  (Without the
non-emptiness proviso the property fails: a zero-byte "successful" download
is re-fetched, see the counterexample.) -/
theorem C4_second_run_skips (e : SyncEnv) (remote2 : RemoteEnv) (dd ck : String)
    (h1 : (download_file_sync e).outcome = .success)
    (h2 : 0 < file_size (download_file_sync e).fs) :
    (download_file_sync (second_run_env e remote2 dd ck)).outcome = .skip_ledger ∧
    (download_file_sync (second_run_env e remote2 dd ck)).retval = true ∧
    (download_file_sync (second_run_env e remote2 dd ck)).probe_calls = 0 ∧
    (download_file_sync (second_run_env e remote2 dd ck)).get_calls = 0 := by
  rcases download_file_sync_cases e with hc | hc | ⟨ex, rh, hc⟩
  · rw [hc] at h1; simp [skip_result] at h1
  · rw [hc] at h1; simp [skip_result] at h1
  · rw [hc] at h1 h2
    obtain ⟨n, hfs1, hled1⟩ := perform_get_success_spec e 1 ex rh h1
    have hfs2 : (second_run_env e remote2 dd ck).fs = .present n := by
      simp [second_run_env, hc, hfs1]
    have hled2 : (second_run_env e remote2 dd ck).ledger =
        save_download_record e.ledger (mk_record e n) := by
      simp [second_run_env, hc, hled1]
    have hn : 0 < n := by
      rw [hfs1] at h2
      simpa [file_size] using h2
    have hskip : is_file_downloaded (second_run_env e remote2 dd ck).ledger
        (second_run_env e remote2 dd ck).key
        (second_run_env e remote2 dd ck).fs = true := by
      rw [hfs2, hled2]
      show is_file_downloaded _ e.key _ = true
      unfold is_file_downloaded find_record save_download_record
      rw [List.find?_cons_of_pos]
      · simp [mk_record]
      · simp [record_matches, mk_record]
    unfold download_file_sync
    rw [if_pos ⟨hskip, by rw [hfs2]; rfl, by rw [hfs2]; simpa [file_size] using hn⟩]
    exact ⟨rfl, rfl, rfl, rfl⟩

theorem C4_witness :
    (download_file_sync (second_run_env c4_wit_env
      ⟨⟨false, 0, none, false⟩, .netError⟩ "x" "y")).outcome = .skip_ledger ∧
    (download_file_sync (second_run_env c4_wit_env
      ⟨⟨false, 0, none, false⟩, .netError⟩ "x" "y")).retval = true ∧
    (download_file_sync (second_run_env c4_wit_env
      ⟨⟨false, 0, none, false⟩, .netError⟩ "x" "y")).probe_calls = 0 ∧
    (download_file_sync (second_run_env c4_wit_env
      ⟨⟨false, 0, none, false⟩, .netError⟩ "x" "y")).get_calls = 0 :=
  C4_second_run_skips c4_wit_env ⟨⟨false, 0, none, false⟩, .netError⟩ "x" "y"
    rfl (by decide)

/-- Claim C9 (confirmed): when the stream raises mid-transfer after bytes
have been written (the file holds `existing + chunks.sum > 0` bytes at the
moment of the exception), the handler of both `download_file_sync` and
`download_file_async` — both reach this shared GET stage — records the
failure and leaves the partial file on disk untouched, neither deleted nor
truncated: the file stays present with exactly the bytes written so far, so
a later run can resume from it. -/
theorem C9_midstream_exception_keeps_partial (e : SyncEnv)
    (probes existing status : Nat) (rh : Option Nat) (chunks : List Nat)
    (hget : e.remote.get = .resp status chunks true)
    (hst : status < 400)
    (hpos : 0 < existing + chunks.sum) :
    (perform_get e probes existing rh).fs = .present (existing + chunks.sum) ∧
    (perform_get e probes existing rh).retval = false ∧
    (perform_get e probes existing rh).outcome = .failure ∧
    (perform_get e probes existing rh).error_recorded = true ∧
    (perform_get e probes existing rh).saved_record = none := by
  have hne : ¬ (400 ≤ status) := by omega
  simp [perform_get, hget, hne, except_cleanup_pos _ hpos]

/-- Claim C1, counterexample: with a 5-byte partial file, range support and a
reported remote size of 10, the worker sends `Range: bytes=5-`; the server
answers `200` with the full 10-byte content; the worker appends (it never
inspects the 200-vs-206 status), returns `True`, and the final local file
has size 15 = K + content-length — not the full content length 10. -/
theorem C1_counterexample :
    (download_file_sync c1_env).sent_range = some 5 ∧
    (get_file_info c1_env.remote.probe).1 = some 10 ∧
    c1_env.remote.get = .resp 200 [10] false ∧
    (download_file_sync c1_env).retval = true ∧
    (download_file_sync c1_env).fs = .present 15 ∧
    ¬ (download_file_sync c1_env).fs = .present 10 := by
  exact ⟨rfl, rfl, rfl, rfl, rfl, by decide⟩

/-- Claim C1, amended: the worker never inspects the status of the download
response beyond `raise_for_status`; when it resumes from a partial file of
size K it always opens in append mode, so a `200` full-content answer of
length L to the ranged request yields a final file of size K + L (a corrupt
concatenation), not L. -/
theorem C1_ranged_200_appends (e : SyncEnv) (K exp status : Nat)
    (chunks : List Nat)
    (hledger : is_file_downloaded e.ledger e.key e.fs = false)
    (hfs : e.fs = .present K) (hK : 0 < K)
    (hres : e.cfg.enable_resume = true)
    (hinfo : get_file_info e.remote.probe = (some exp, true))
    (hlt : K < exp)
    (hget : e.remote.get = .resp status chunks false)
    (hst : status < 400) :
    (download_file_sync e).sent_range = some K ∧
    (download_file_sync e).write_base = some K ∧
    (download_file_sync e).retval = true ∧
    (download_file_sync e).fs = .present (K + chunks.sum) := by
  have hne : ¬ (400 ≤ status) := by omega
  have hexp : exp ≠ 0 := by omega
  rw [hfs] at hledger
  simp [download_file_sync, perform_get, hledger, hfs, hinfo, hres, hget, hne,
    file_exists, file_size, hlt, hexp, mk_record]

theorem C1_witness :
    (download_file_sync c1_env).sent_range = some 5 ∧
    (download_file_sync c1_env).write_base = some 5 ∧
    (download_file_sync c1_env).retval = true ∧
    (download_file_sync c1_env).fs = .present (5 + List.sum [10]) :=
  C1_ranged_200_appends c1_env 5 10 200 [10] rfl rfl (by omega) rfl rfl
    (by omega) rfl (by omega)

/-- Claim C2, counterexample: the asynchronous download violates the
invariant.  With resume enabled, a 3-byte partial file and a server whose
probe would report `supports_range = false`, `download_file_async` still
attaches `Range: bytes=3-` and opens the file in append mode at offset 3 —
it does not discard the partial file, start at byte 0, or drop the header. -/
theorem C2_counterexample :
    (get_file_info c2_env.remote.probe).2 = false ∧
    (download_file_async c2_env).sent_range = some 3 ∧
    (download_file_async c2_env).write_base = some 3 ∧
    ¬ ((download_file_async c2_env).sent_range = none ∧
       (download_file_async c2_env).write_base = some 0) := by
  exact ⟨rfl, rfl, rfl, by decide⟩

/-- Claim C2, amended: the invariant holds for the synchronous download
only: when the probe reports no range support, `download_file_sync` sends no
`Range` header and, if it opens the file at all, opens it in write mode
truncating to byte 0.  The asynchronous download performs no probe and, with
resume enabled and an existing file of size n, always sends
`Range: bytes=n-` and (if it opens the file) writes from offset n. -/
theorem C2_sync_restarts_async_ranges :
    (∀ e : SyncEnv, (get_file_info e.remote.probe).2 = false →
      (download_file_sync e).sent_range = none ∧
      ((download_file_sync e).write_base = none ∨
       (download_file_sync e).write_base = some 0)) ∧
    (∀ (e : SyncEnv) (n : Nat), e.cfg.enable_resume = true → e.fs = .present n →
      is_file_downloaded e.ledger e.key e.fs = false →
      (download_file_async e).sent_range = some n ∧
      ((download_file_async e).write_base = none ∨
       (download_file_async e).write_base = some n)) := by
  constructor
  · intro e hsr
    unfold download_file_sync
    by_cases h1 : is_file_downloaded e.ledger e.key e.fs = true ∧
        file_exists e.fs = true ∧ 0 < file_size e.fs
    · rw [if_pos h1]; exact ⟨rfl, Or.inl rfl⟩
    · rw [if_neg h1]
      have h2 : ¬ (e.cfg.enable_resume = true ∧ file_exists e.fs = true ∧
          (get_file_info e.remote.probe).2 = true ∧
          (get_file_info e.remote.probe).1.getD 0 ≠ 0) := by
        intro hc
        rw [hsr] at hc
        exact absurd hc.2.2.1 (by simp)
      rw [if_neg h2]
      exact ⟨perform_get_sent_range e 1 0 none, perform_get_write_base e 1 0 none⟩
  · intro e n hres hfs hled
    unfold download_file_async
    have h1 : ¬ (is_file_downloaded e.ledger e.key e.fs = true ∧
        file_exists e.fs = true ∧ 0 < file_size e.fs) := by
      intro hc
      rw [hled] at hc
      exact absurd hc.1 (by simp)
    rw [if_neg h1]
    have h2 : e.cfg.enable_resume = true ∧ file_exists e.fs = true := by
      refine ⟨hres, ?_⟩
      rw [hfs]
      rfl
    rw [if_pos h2]
    have hn : file_size e.fs = n := by rw [hfs]; rfl
    rw [hn]
    exact ⟨perform_get_sent_range e 0 n (some n), perform_get_write_base e 0 n (some n)⟩

theorem C2_witness :
    ((download_file_sync c2_env).sent_range = none ∧
     ((download_file_sync c2_env).write_base = none ∨
      (download_file_sync c2_env).write_base = some 0)) ∧
    ((download_file_async c2_env).sent_range = some 3 ∧
     ((download_file_async c2_env).write_base = none ∨
      (download_file_async c2_env).write_base = some 3)) :=
  ⟨C2_sync_restarts_async_ranges.1 c2_env rfl,
   C2_sync_restarts_async_ranges.2 c2_env 3 rfl rfl rfl⟩

/-- Claim C7, counterexample: a transfer answered by a transient HTTP 500 is
not retried: `download_file_sync` issues exactly one GET (not the claimed up
to 3 backoff attempts), records the failure immediately, and returns
`False`. -/
theorem C7_counterexample :
    c7_env.remote.get = .resp 500 [] false ∧
    (download_file_sync c7_env).get_calls = 1 ∧
    ¬ 2 ≤ (download_file_sync c7_env).get_calls ∧
    (download_file_sync c7_env).outcome = .failure ∧
    (download_file_sync c7_env).retval = false ∧
    (download_file_sync c7_env).error_recorded = true := by
  exact ⟨rfl, rfl, by decide, rfl, rfl, rfl⟩

/-- Claim C7, amended: no failure of the transfer is retried, transient or
not.  The only retry configuration in the module — `stop_after_attempt(3)`
with exponential wait clamped between 4 and 10 seconds — decorates the
probe, and it never fires, because the probe's own catch-all handler returns
`(None, False)` instead of raising, so the decorated callable always makes
exactly one attempt.  The download itself issues at most one GET per call;
any failing attempt (connection error, or any HTTP status of at least 400,
404 and 500 alike) is caught by the blanket handler, recorded via
`add_failure`, and the call returns `False` so the batch continues. -/
theorem C7_no_retry_single_attempt :
    (∀ p : ProbeResp,
      tenacity_attempt_count (probe_body p) probe_retry_stop_after_attempt = 1) ∧
    (∀ e : SyncEnv, (download_file_sync e).get_calls ≤ 1) ∧
    (∀ e : SyncEnv, (download_file_sync e).outcome = .failure →
      (download_file_sync e).error_recorded = true ∧
      (download_file_sync e).retval = false ∧
      (download_file_sync e).get_calls = 1) := by
  refine ⟨fun p => rfl, fun e => ?_, fun e h => ?_⟩
  · rcases download_file_sync_cases e with hc | hc | ⟨ex, rh, hc⟩ <;> rw [hc]
    · simp [skip_result]
    · simp [skip_result]
    · rw [perform_get_get_calls e 1 ex rh]
  · rcases download_file_sync_cases e with hc | hc | ⟨ex, rh, hc⟩ <;> rw [hc] at h ⊢
    · simp [skip_result] at h
    · simp [skip_result] at h
    · obtain ⟨h1, h2⟩ := perform_get_failure_spec e 1 ex rh h
      exact ⟨h1, h2, perform_get_get_calls e 1 ex rh⟩

theorem C7_witness :
    (download_file_sync c7_env).error_recorded = true ∧
    (download_file_sync c7_env).retval = false ∧
    (download_file_sync c7_env).get_calls = 1 :=
  C7_no_retry_single_attempt.2.2 c7_env rfl

theorem rl_acquire_same (cpm : Nat) (s : RLState) (now : Nat)
    (h1 : now < s.window_start + 60) (h2 : s.calls_made < cpm) :
    rl_acquire cpm s now = (now, ⟨s.calls_made + 1, s.window_start⟩) := by
  unfold rl_acquire
  dsimp only
  rw [if_neg (by omega : ¬ 60 ≤ now - s.window_start)]
  rw [if_neg (by omega : ¬ cpm ≤ s.calls_made)]

theorem rl_acquire_reset (cpm : Nat) (hcpm : 1 ≤ cpm) (s : RLState) (now : Nat)
    (h1 : s.window_start + 60 ≤ now) :
    rl_acquire cpm s now = (now, ⟨1, now⟩) := by
  unfold rl_acquire
  dsimp only
  rw [if_pos (by omega : 60 ≤ now - s.window_start)]
  dsimp only
  rw [if_neg (by omega : ¬ cpm ≤ 0)]

theorem rl_acquire_blocked (cpm : Nat) (s : RLState) (now : Nat)
    (h1 : now < s.window_start + 60) (h2 : cpm ≤ s.calls_made) :
    rl_acquire cpm s now = (s.window_start + 60, ⟨1, s.window_start + 60⟩) := by
  unfold rl_acquire
  dsimp only
  rw [if_neg (by omega : ¬ 60 ≤ now - s.window_start)]
  rw [if_pos h2, if_pos h1]

/-- The limiter's window start never moves backwards across an `acquire`. -/
theorem rl_acquire_ws_mono (cpm : Nat) (hcpm : 1 ≤ cpm) (s : RLState) (now : Nat) :
    s.window_start ≤ (rl_acquire cpm s now).2.window_start := by
  by_cases h1 : s.window_start + 60 ≤ now
  · rw [rl_acquire_reset cpm hcpm s now h1]
    dsimp only
    omega
  · push_neg at h1
    by_cases h2 : cpm ≤ s.calls_made
    · rw [rl_acquire_blocked cpm s now h1 h2]
      dsimp only
      omega
    · rw [rl_acquire_same cpm s now h1 (by omega)]

/-- Every admission of a run is counted against a window start no earlier
than the starting state's window start. -/
theorem rl_run_ws_le (cpm : Nat) (hcpm : 1 ≤ cpm) :
    ∀ (gaps : List Nat) (s : RLState) (last : Nat), ∀ p ∈ rl_run cpm s last gaps,
      s.window_start ≤ p.2 := by
  intro gaps
  induction gaps with
  | nil =>
    intro s last p hp
    simp [rl_run] at hp
  | cons gap gaps ih =>
    intro s last p hp
    rw [rl_run] at hp
    rcases List.mem_cons.mp hp with hEq | hMem
    · subst hEq
      exact rl_acquire_ws_mono cpm hcpm s (last + gap)
    · have h1 := ih (rl_acquire cpm s (last + gap)).2 (rl_acquire cpm s (last + gap)).1 p hMem
      have h2 := rl_acquire_ws_mono cpm hcpm s (last + gap)
      omega

theorem window_count_cons (w : Nat) (p : Nat × Nat) (l : List (Nat × Nat)) :
    window_count w (p :: l) = (if p.2 = w then 1 else 0) + window_count w l := by
  simp only [window_count, List.filter_cons]
  by_cases h : p.2 = w
  · simp [h, Nat.add_comm]
  · simp [h]

theorem window_count_eq_zero (w : Nat) (l : List (Nat × Nat))
    (h : ∀ p ∈ l, w < p.2) : window_count w l = 0 := by
  induction l with
  | nil => rfl
  | cons p l ih =>
    rw [window_count_cons]
    rw [if_neg (by have := h p (List.mem_cons_self p l); omega)]
    rw [ih (fun q hq => h q (List.mem_cons_of_mem p hq))]

/-- Core invariant of the limiter: starting from a state whose counter does
not exceed the budget, a run admits at most `cpm - calls_made` further calls
into the current window and at most `cpm` calls into any other window. -/
theorem rl_run_window_count_le (cpm : Nat) (hcpm : 1 ≤ cpm) (w : Nat) :
    ∀ (gaps : List Nat) (s : RLState) (last : Nat), s.calls_made ≤ cpm →
      window_count w (rl_run cpm s last gaps) ≤
        (if w = s.window_start then cpm - s.calls_made else cpm) := by
  intro gaps
  induction gaps with
  | nil =>
    intro s last hcm
    have h0 : window_count w (rl_run cpm s last []) = 0 := rfl
    rw [h0]
    exact Nat.zero_le _
  | cons gap gaps ih =>
    intro s last hcm
    rw [rl_run]
    by_cases hA : s.window_start + 60 ≤ last + gap
    · -- window expired: reset to a strictly later window starting now
      rw [rl_acquire_reset cpm hcpm s (last + gap) hA]
      dsimp only
      rw [window_count_cons]
      have hih := ih ⟨1, last + gap⟩ (last + gap) (by omega : (1 : Nat) ≤ cpm)
      dsimp only at hih
      by_cases hw : w = last + gap
      · rw [if_pos hw.symm]
        rw [if_pos hw] at hih
        rw [if_neg (by omega : ¬ w = s.window_start)]
        omega
      · rw [if_neg (fun hc => hw hc.symm)]
        rw [if_neg hw] at hih
        by_cases hw2 : w = s.window_start
        · have hz : window_count w (rl_run cpm ⟨1, last + gap⟩ (last + gap) gaps) = 0 := by
            apply window_count_eq_zero
            intro p hp
            have hle := rl_run_ws_le cpm hcpm gaps ⟨1, last + gap⟩ (last + gap) p hp
            dsimp only at hle
            omega
          rw [hz, if_pos hw2]
          omega
        · rw [if_neg hw2]
          omega
    · by_cases hB : cpm ≤ s.calls_made
      · -- budget exhausted: sleep to the window rollover, admit there
        rw [rl_acquire_blocked cpm s (last + gap) (by omega) hB]
        dsimp only
        rw [window_count_cons]
        have hih := ih ⟨1, s.window_start + 60⟩ (s.window_start + 60)
          (by omega : (1 : Nat) ≤ cpm)
        dsimp only at hih
        by_cases hw : w = s.window_start + 60
        · rw [if_pos hw.symm]
          rw [if_pos hw] at hih
          rw [if_neg (by omega : ¬ w = s.window_start)]
          omega
        · rw [if_neg (fun hc => hw hc.symm)]
          rw [if_neg hw] at hih
          by_cases hw2 : w = s.window_start
          · have hz : window_count w
                (rl_run cpm ⟨1, s.window_start + 60⟩ (s.window_start + 60) gaps) = 0 := by
              apply window_count_eq_zero
              intro p hp
              have hle := rl_run_ws_le cpm hcpm gaps ⟨1, s.window_start + 60⟩
                (s.window_start + 60) p hp
              dsimp only at hle
              omega
            rw [hz, if_pos hw2]
            omega
          · rw [if_neg hw2]
            omega
      · -- same window: plain increment
        rw [rl_acquire_same cpm s (last + gap) (by omega) (by omega)]
        dsimp only
        rw [window_count_cons]
        have hih := ih ⟨s.calls_made + 1, s.window_start⟩ (last + gap)
          (by omega : s.calls_made + 1 ≤ cpm)
        dsimp only at hih
        by_cases hw : w = s.window_start
        · rw [if_pos hw.symm, if_pos hw]
          rw [if_pos hw] at hih
          omega
        · rw [if_neg (fun hc => hw hc.symm), if_neg hw]
          rw [if_neg hw] at hih
          omega

/-- Claim C6, counterexample: with `calls_per_minute = 2`, a limiter
constructed at time 0 and lock arrivals at gaps `[0, 59, 2, 0]` admits calls
at times 0, 59, 61, 61: admissions number 1 and 3 (0-indexed, 2 apart) are
only 2 seconds apart, so a rolling 60-second window (e.g. seconds 2..61)
contains 3 > R admitted calls — the limiter is fixed-window, not
rolling-window. -/
theorem C6_counterexample : ¬ rolling_bound 2 (rl_admits 2 0 [0, 59, 2, 0]) := by
  decide

/-- Claim C6, amended: the bound of `calls_per_minute = R` admissions holds
per limiter window, not per rolling 60-second window: for every run, at most
R admitted `acquire()` calls are counted against any one `window_start`
value (equivalently, `calls_made` never exceeds R).  A rolling 60-second
window can still contain up to 2R admissions, as the counterexample shows. -/
theorem C6_fixed_window_bound (cpm t0 w : Nat) (gaps : List Nat)
    (hcpm : 1 ≤ cpm) :
    window_count w (rl_run cpm (RLState.mk 0 t0) t0 gaps) ≤ cpm := by
  have h := rl_run_window_count_le cpm hcpm w gaps (RLState.mk 0 t0) t0
    (by omega : (0 : Nat) ≤ cpm)
  dsimp only at h
  by_cases hw : w = t0
  · rw [if_pos hw] at h
    omega
  · rw [if_neg hw] at h
    exact h

theorem C6_witness :
    1 ≤ 2 ∧ window_count 0 (rl_run 2 (RLState.mk 0 0) 0 [0, 59, 2, 0]) ≤ 2 :=
  ⟨by omega, C6_fixed_window_bound 2 0 0 [0, 59, 2, 0] (by omega)⟩

theorem C9_witness :
    (perform_get c9_env 1 5 (some 5)).fs = .present 8 ∧
    (perform_get c9_env 1 5 (some 5)).retval = false ∧
    (perform_get c9_env 1 5 (some 5)).outcome = .failure ∧
    (perform_get c9_env 1 5 (some 5)).error_recorded = true ∧
    (perform_get c9_env 1 5 (some 5)).saved_record = none :=
  C9_midstream_exception_keeps_partial c9_env 1 5 206 (some 5) [3] rfl
    (by omega) (by decide)

end VanEck
